import Mathlib

/-!
Shallow embedding of the fixed-record chat storage engine from `store.go`
(package `main` of tmdgusya/relay), together with the stub `Get` method and
the constants of the on-disk format.  The Go `Storage` struct holds the
notification channel and the cached header; the single database file is
modelled as an optional byte list carried in the same state record, and
the asynchronous notification sends are modelled as appends to an output
list in program order.  Filesystem faults (mkdir/open/write failures) are
outside the model; every other branch of the Go code is reproduced,
including the dead `if id == 0` header-update branch of `Store`, the
unchecked header decoding of `loadHeader`, and the fact that `Initialize`
discards `loadHeader`'s error.  Go `uint32`/`uint16`/`uint64` arithmetic
is modelled on `Nat` with explicit `% 2 ^ w`; a Go runtime panic (the
out-of-range slice `content.Content[:content.Length]`) is a distinguished
outcome, not an error return.
-/

namespace Relay

/-- Payload capacity of one record, `MAXIMUM_MESSAGE_SIZE` in `store.go`. -/
def MAXIMUM_MESSAGE_SIZE : Nat := 4096

/-- Size of the on-disk header in bytes, `HEADER_SIZE` in `store.go`. -/
def HEADER_SIZE : Nat := 16

/-- Size of one on-disk record in bytes, `CONTENT_SIZE` in `store.go`. -/
def CONTENT_SIZE : Nat := 22 + MAXIMUM_MESSAGE_SIZE

/-- Big-endian encoding of a 16-bit value into two bytes,
as `binary.BigEndian.PutUint16`. -/
def enc16 (n : Nat) : List Nat :=
  [n / 2 ^ 8 % 256, n % 256]

/-- Big-endian encoding of a 32-bit value into four bytes,
as `binary.BigEndian.PutUint32`. -/
def enc32 (n : Nat) : List Nat :=
  [n / 2 ^ 24 % 256, n / 2 ^ 16 % 256, n / 2 ^ 8 % 256, n % 256]

/-- Big-endian encoding of a 64-bit value into eight bytes,
as `binary.BigEndian.PutUint64`. -/
def enc64 (n : Nat) : List Nat :=
  [n / 2 ^ 56 % 256, n / 2 ^ 48 % 256, n / 2 ^ 40 % 256, n / 2 ^ 32 % 256,
   n / 2 ^ 24 % 256, n / 2 ^ 16 % 256, n / 2 ^ 8 % 256, n % 256]

/-- Big-endian decoding of the first four bytes of a list,
as `binary.BigEndian.Uint32` applied to a 4-byte slice.  On fewer than
four bytes Go would panic; that case is modelled as 0 and is unreachable
here because every call site decodes a 16-byte buffer. -/
def dec32 : List Nat → Nat
  | a :: b :: c :: d :: _ => ((a * 256 + b) * 256 + c) * 256 + d
  | _ => 0

/-- The two's-complement bit pattern of a Go `int64` reinterpreted as
`uint64`, as the conversion `uint64(x)` in `Store`. -/
def toU64 (x : Int) : Nat := (x % 2 ^ 64).toNat

/-- The file header, `Header` in `store.go`: magic tag, format version,
record counter and allocation counter.  `Magic` is four raw bytes. -/
structure Header where
  Magic : List Nat
  Version : Nat
  Record : Nat
  Count : Nat
deriving DecidableEq, Repr

/-- One chat record, `Content` in `store.go`.  In Go the payload is a
fixed `[4096]byte` array; here it is a byte list whose well-formed
instances have length 4096. -/
structure Content where
  Id : Nat
  CreatedAt : Int
  UpdatedAt : Int
  Length : Nat
  Content : List Nat
deriving DecidableEq, Repr

/-- The storage engine state, `Storage` in `store.go`, extended with the
single database file it owns on disk (`none` when the file is absent) so
that the per-call open/read/write behaviour can be expressed.  `stdOut`
records the notification strings in the order the code sends them. -/
structure Storage where
  stdOut : List String
  header : Header
  file : Option (List Nat)
deriving DecidableEq, Repr

/-- The header written for a freshly created database in `Initialize`:
magic `"CHAT"`, version 1, zero counters. -/
def freshHeader : Header :=
  { Magic := [67, 72, 65, 84], Version := 1, Record := 0, Count := 0 }

/-- The Go zero value of `Header`, the state of the cache before any
load succeeds. -/
def zeroHeader : Header :=
  { Magic := [0, 0, 0, 0], Version := 0, Record := 0, Count := 0 }

/-- Positioned write into the file, as `os.File.WriteAt`: the file is
zero-extended up to the target region if the offset lies past the current
end, then the region `[off, off + d.length)` is overwritten with `d`. -/
def writeAt (f : List Nat) (off : Nat) (d : List Nat) : List Nat :=
  let ext := f ++ List.replicate (off + d.length - f.length) 0
  ext.take off ++ d ++ ext.drop (off + d.length)

/-- The bytes of the file at offsets `[off, off + n)` (truncated at the
end of the file). -/
def readAt (f : List Nat) (off n : Nat) : List Nat :=
  (f.drop off).take n

/-- The buffer produced by `loadHeader`'s single `file.Read` on a
non-empty file: up to 16 bytes from the front of the file, with the
remainder of the zero-initialised buffer untouched. -/
def pad16 (f : List Nat) : List Nat :=
  f.take 16 ++ List.replicate (16 - f.length) 0

/-- Header serialisation as performed by `saveHeader`: magic bytes
verbatim, then `Version`, `Record`, `Count` big-endian. -/
def encodeHeader (h : Header) : List Nat :=
  h.Magic ++ enc32 h.Version ++ enc32 h.Record ++ enc32 h.Count

/-- Header deserialisation as performed by `loadHeader`: the four slices
`buf[:4]`, `buf[4:8]`, `buf[8:12]`, `buf[12:16]`.  Note that the Go code
performs no validation whatsoever here: no length check and no comparison
of the magic bytes against `"CHAT"`. -/
def decodeHeader (b : List Nat) : Header :=
  { Magic := b.take 4
    Version := dec32 (b.drop 4)
    Record := dec32 (b.drop 8)
    Count := dec32 (b.drop 12) }

/-- `Storage.GetOffset` from `store.go`: `HEADER_SIZE + id*CONTENT_SIZE`
computed in Go `uint32` arithmetic, hence reduced modulo `2^32`. -/
def Storage.GetOffset (id : Nat) : Nat :=
  (HEADER_SIZE + id * CONTENT_SIZE) % 2 ^ 32

/-- `Header.GenerateId` from `store.go`: `h.Count + 1` in `uint32`
arithmetic. -/
def Header.GenerateId (h : Header) : Nat :=
  (h.Count + 1) % 2 ^ 32

/-- The record buffer built by `Store` for a content whose `Length` is
within capacity: zero-initialised `CONTENT_SIZE` bytes, then `Id`,
`CreatedAt`, `UpdatedAt`, `Length` big-endian and the first `Length`
payload bytes; the rest of the payload window stays zero. -/
def encodeRecord (id : Nat) (c : Content) : List Nat :=
  enc32 (id % 2 ^ 32) ++ enc64 (toU64 c.CreatedAt) ++ enc64 (toU64 c.UpdatedAt) ++
    enc16 (c.Length % 2 ^ 16) ++
    (c.Content.take c.Length ++ List.replicate (MAXIMUM_MESSAGE_SIZE - c.Length) 0)

/-- Notification sent at the top of `Initialize`. -/
def creatingMsg : String := "Creating database..."

/-- Notification sent by `Initialize` when the file already exists. -/
def existsMsg : String := "Database already exists"

/-- Notification sent by `Initialize` after creating the database. -/
def createdMsg : String := "Database created successfully"

/-- Notification sent by `Store` after a successful write. -/
def storedMsg (id : Nat) : String := "Stored message with ID " ++ toString id

/-- `Storage.loadHeader` from `store.go`: reads up to 16 bytes from the
front of the file into a zeroed buffer and slices the fields out with no
validation.  On an empty file the `Read` fails with `io.EOF` and the
cached header is left untouched; the same happens when the file is
absent.  The returned error is not modelled because the only caller,
`Initialize`, discards it. -/
def Storage.loadHeader (s : Storage) : Storage :=
  match s.file with
  | none => s
  | some f =>
    if f.length = 0 then s
    else { s with header := decodeHeader (pad16 f) }

/-- `Storage.saveHeader` from `store.go`: seeks to offset 0 and writes
the 16 encoded header bytes in place.  Absent file (open failure) leaves
the state unchanged. -/
def Storage.saveHeader (s : Storage) : Storage :=
  match s.file with
  | none => s
  | some f => { s with file := some (writeAt f 0 (encodeHeader s.header)) }

/-- `Storage.Initialize` from `store.go`.  Sends "Creating database...",
then tries to create the file with `O_CREATE|O_EXCL`.  If it already
exists: calls `loadHeader` (discarding its error), sends the
"already exists" notification and returns `nil`.  Otherwise the file is
created empty, the fresh header is cached and saved, and the "created"
notification is sent.  Every modelled path returns success, mirroring the
code in the absence of filesystem faults. -/
def Storage.Initialize (s : Storage) : Except String Storage :=
  let s0 := { s with stdOut := s.stdOut ++ [creatingMsg] }
  match s0.file with
  | some _ =>
    let s1 := s0.loadHeader
    .ok { s1 with stdOut := s1.stdOut ++ [existsMsg] }
  | none =>
    let s1 := { s0 with header := freshHeader, file := some [] }
    let s2 := s1.saveHeader
    .ok { s2 with stdOut := s2.stdOut ++ [createdMsg] }

/-- Result of one `Store` call: a Go runtime panic (the slice expression
`content.Content[:content.Length]` with `Length` beyond the array bound),
an I/O error return, or the returned identifier with the post state. -/
inductive StoreOutcome where
  | crash : StoreOutcome
  | ioError : StoreOutcome
  | ok : Nat → Storage → StoreOutcome
deriving DecidableEq, Repr

/-- `Storage.Store` from `store.go`.  If `id == 0` the identifier is
reassigned to `GenerateId()`; the offset is computed from the reassigned
identifier; the record buffer is built (panicking when `Length` exceeds
the payload array bound) and written at the offset.  The subsequent
`if id == 0` test examines the reassigned variable, so the
`Count`/`Record` increments and `saveHeader` run only when `GenerateId`
itself wrapped to zero.  Finally the "stored" notification is sent and
the identifier returned. -/
def Storage.Store (s : Storage) (id : Nat) (c : Content) : StoreOutcome :=
  let id1 := if id = 0 then s.header.GenerateId else id
  let off := Storage.GetOffset id1
  match s.file with
  | none => .ioError
  | some f =>
    if MAXIMUM_MESSAGE_SIZE < c.Length then .crash
    else
      let s1 := { s with file := some (writeAt f off (encodeRecord id1 c)) }
      let s2 :=
        if id1 = 0 then
          Storage.saveHeader
            { s1 with
              header :=
                { s1.header with
                  Count := (s1.header.Count + 1) % 2 ^ 32
                  Record := (s1.header.Record + 1) % 2 ^ 32 } }
        else s1
      .ok id1 { s2 with stdOut := s2.stdOut ++ [storedMsg id1] }

/-- `Storage.Get` from `store.go`: the method body is a stub that
returns the empty string for every identifier, reading nothing. -/
def Storage.Get (s : Storage) (id : Int) : String :=
  ""

/-! ### Concrete states and contents used to evaluate the engine -/

/-- A representable content: empty message, full 4096-byte payload array. -/
def cEmpty : Content :=
  { Id := 0, CreatedAt := 0, UpdatedAt := 0, Length := 0,
    Content := List.replicate 4096 0 }

/-- A one-byte message whose payload starts with byte 1. -/
def cA : Content :=
  { Id := 0, CreatedAt := 0, UpdatedAt := 0, Length := 1,
    Content := 1 :: List.replicate 4095 0 }

/-- A one-byte message whose payload starts with byte 2. -/
def cB : Content :=
  { Id := 0, CreatedAt := 0, UpdatedAt := 0, Length := 2,
    Content := 2 :: 3 :: List.replicate 4094 0 }

/-- A content whose `Length` field exceeds the 4096-byte payload array. -/
def cBig : Content :=
  { Id := 0, CreatedAt := 0, UpdatedAt := 0, Length := 4097,
    Content := List.replicate 4096 0 }

/-- The engine state right after a fresh `Initialize`: fresh header cached
and written at offset 0 of the new file. -/
def sInit : Storage :=
  { stdOut := [], header := freshHeader, file := some (encodeHeader freshHeader) }

/-- The engine state before any `Initialize`: no database file. -/
def sAbsent : Storage :=
  { stdOut := [], header := zeroHeader, file := none }

/-- A store whose header records one allocated identifier. -/
def sCount1 : Storage :=
  { stdOut := []
    header := { Magic := [67, 72, 65, 84], Version := 1, Record := 1, Count := 1 }
    file := some (encodeHeader
      { Magic := [67, 72, 65, 84], Version := 1, Record := 1, Count := 1 }) }

/-- A 16-byte file whose magic tag is `"XXXX"` instead of `"CHAT"`. -/
def fBadMagic : List Nat := [88, 88, 88, 88] ++ enc32 1 ++ enc32 0 ++ enc32 0

/-- Engine state over the bad-magic file. -/
def sBadMagic : Storage :=
  { stdOut := [], header := zeroHeader, file := some fBadMagic }

/-- Engine state over an existing file of only 3 bytes, fewer than
`HEADER_SIZE`. -/
def sShortFile : Storage :=
  { stdOut := [], header := zeroHeader, file := some [67, 72, 65] }

/-! ### Helper lemmas about the byte-level codec and file primitives -/

theorem dec32_enc32_append (n : Nat) (t : List Nat) (h : n < 2 ^ 32) :
    dec32 (enc32 n ++ t) = n := by
  simp only [enc32, List.cons_append, List.nil_append, dec32]
  omega

theorem enc32_length (n : Nat) : (enc32 n).length = 4 := by
  simp [enc32]

theorem enc64_length (n : Nat) : (enc64 n).length = 8 := by
  simp [enc64]

theorem enc16_length (n : Nat) : (enc16 n).length = 2 := by
  simp [enc16]

theorem encodeHeader_length (h : Header) (hm : h.Magic.length = 4) :
    (encodeHeader h).length = HEADER_SIZE := by
  simp [encodeHeader, enc32, hm, HEADER_SIZE]

theorem encodeRecord_length (id : Nat) (c : Content)
    (hlen : c.Length ≤ MAXIMUM_MESSAGE_SIZE)
    (hc : c.Content.length = MAXIMUM_MESSAGE_SIZE) :
    (encodeRecord id c).length = CONTENT_SIZE := by
  simp only [encodeRecord, List.length_append, List.length_take,
    List.length_replicate, enc32_length, enc64_length, enc16_length, hc]
  simp only [CONTENT_SIZE, MAXIMUM_MESSAGE_SIZE] at *
  omega

theorem writeAt_length (f d : List Nat) (off : Nat) :
    (writeAt f off d).length = max f.length (off + d.length) := by
  simp only [writeAt, List.length_append, List.length_take,
    List.length_drop, List.length_replicate]
  omega

theorem readAt_writeAt_take (f d : List Nat) (off n : Nat)
    (h : n ≤ d.length) :
    readAt (writeAt f off d) off n = d.take n := by
  simp only [writeAt, readAt]
  have hext : off ≤ (f ++ List.replicate (off + d.length - f.length) 0).length := by
    simp only [List.length_append, List.length_replicate]; omega
  rw [List.append_assoc,
    List.drop_left' (by simp only [List.length_take, List.length_append,
      List.length_replicate]; omega),
    List.take_append_eq_append_take, Nat.sub_eq_zero_of_le h]
  simp

theorem readAt_writeAt (f d : List Nat) (off : Nat) :
    readAt (writeAt f off d) off d.length = d := by
  rw [readAt_writeAt_take f d off d.length (Nat.le_refl _), List.take_length]

theorem decodeHeader_encodeHeader (h : Header)
    (hm : h.Magic.length = 4) (hv : h.Version < 2 ^ 32)
    (hr : h.Record < 2 ^ 32) (hc : h.Count < 2 ^ 32) :
    decodeHeader (encodeHeader h) = h := by
  obtain ⟨m, v, r, c⟩ := h
  have hm' : m.length = 4 := hm
  have hv' : v < 2 ^ 32 := hv
  have hr' : r < 2 ^ 32 := hr
  have hc' : c < 2 ^ 32 := hc
  have e0 : encodeHeader ⟨m, v, r, c⟩ = m ++ (enc32 v ++ (enc32 r ++ enc32 c)) := by
    simp [encodeHeader]
  have eMagic : (m ++ (enc32 v ++ (enc32 r ++ enc32 c))).take 4 = m :=
    List.take_left' hm'
  have eV : dec32 ((m ++ (enc32 v ++ (enc32 r ++ enc32 c))).drop 4) = v := by
    rw [List.drop_left' hm']
    exact dec32_enc32_append v _ hv'
  have eR : dec32 ((m ++ (enc32 v ++ (enc32 r ++ enc32 c))).drop 8) = r := by
    rw [← List.append_assoc, List.drop_left' (by simp [hm', enc32_length])]
    exact dec32_enc32_append r _ hr'
  have eC : dec32 ((m ++ (enc32 v ++ (enc32 r ++ enc32 c))).drop 12) = c := by
    rw [← List.append_assoc, ← List.append_assoc,
      List.drop_left' (by simp [hm', enc32_length])]
    have h0 := dec32_enc32_append c [] hc'
    rwa [List.append_nil] at h0
  rw [e0]
  simp only [decodeHeader, Header.mk.injEq]
  exact ⟨eMagic, eV, eR, eC⟩

theorem writeAt_nil_zero (d : List Nat) : writeAt [] 0 d = d := by
  simp [writeAt]

theorem pad16_of_length_eq (f : List Nat) (hl : f.length = 16) : pad16 f = f := by
  simp [pad16, hl, List.take_of_length_le (Nat.le_of_eq hl)]

/-- Unfolding of `Initialize` on a state whose database file exists. -/
theorem Initialize_some (s : Storage) (f : List Nat) (hf : s.file = some f) :
    Storage.Initialize s = .ok
      { stdOut := s.stdOut ++ [creatingMsg, existsMsg]
        header := if f.length = 0 then s.header else decodeHeader (pad16 f)
        file := some f } := by
  cases s with
  | mk o h fl =>
    cases hf
    by_cases h0 : f.length = 0 <;>
      simp [ Storage.Initialize, Storage.loadHeader, h0]

/-- Unfolding of `Initialize` on a state with no database file. -/
theorem Initialize_none (s : Storage) (hf : s.file = none) :
    Storage.Initialize s = .ok
      { stdOut := s.stdOut ++ [creatingMsg, createdMsg]
        header := freshHeader
        file := some (encodeHeader freshHeader) } := by
  cases s with
  | mk o h fl =>
    cases hf
    simp [ Storage.Initialize, Storage.saveHeader, writeAt_nil_zero]

/-- Unfolding of `Store` for a nonzero identifier on a state whose file
exists and a content within capacity: pure record write, no header
change. -/
theorem Store_ne_zero (s : Storage) (f : List Nat) (id : Nat) (c : Content)
    (hf : s.file = some f) (hid : id ≠ 0)
    (hlen : c.Length ≤ MAXIMUM_MESSAGE_SIZE) :
    Storage.Store s id c = .ok id
      { stdOut := s.stdOut ++ [storedMsg id]
        header := s.header
        file := some (writeAt f (Storage.GetOffset id) (encodeRecord id c)) } := by
  cases s with
  | mk o h fl =>
    cases hf
    simp [Storage.Store, hid, Nat.not_lt.mpr hlen]

/-- Unfolding of `Store` for identifier 0 when `Count + 1` does not wrap:
the identifier is reassigned to `Count + 1`, the record is written at its
offset, and — because the `if id == 0` guard tests the reassigned
identifier — the header is left untouched. -/
theorem Store_zero (s : Storage) (f : List Nat) (c : Content)
    (hf : s.file = some f) (hcnt : s.header.Count + 1 < 2 ^ 32)
    (hlen : c.Length ≤ MAXIMUM_MESSAGE_SIZE) :
    Storage.Store s 0 c = .ok (s.header.Count + 1)
      { stdOut := s.stdOut ++ [storedMsg (s.header.Count + 1)]
        header := s.header
        file := some (writeAt f (Storage.GetOffset (s.header.Count + 1))
          (encodeRecord (s.header.Count + 1) c)) } := by
  cases s with
  | mk o h fl =>
    cases hf
    have hmod : h.GenerateId = h.Count + 1 := Nat.mod_eq_of_lt hcnt
    have hne : h.GenerateId ≠ 0 := by omega
    simp only [Storage.Store, if_pos rfl, hmod, hne, if_neg hne,
      Nat.not_lt.mpr hlen, if_neg (by omega : ¬ MAXIMUM_MESSAGE_SIZE < c.Length)]
    simp [hmod]

/-! ### Claim theorems -/

/-- Claim C1: the spec says each `Store(0, c)` allocates `Count + 1` and
increments both `Count` and `Record` before returning, so N calls return
1, 2, ..., N.  In the code the `if id == 0` guard around the increments
tests the already-reassigned identifier, so the header is never updated:
on a fresh store two consecutive `Store(0, c)` calls both return
identifier 1 and leave `Count = Record = 0`. -/
theorem C1_store_allocation_broken :
    ∃ s1 s2,
      Storage.Store sInit 0 cEmpty = .ok 1 s1 ∧
      s1.header.Count = 0 ∧ s1.header.Record = 0 ∧
      Storage.Store s1 0 cEmpty = .ok 1 s2 ∧
      s2.header.Count = 0 ∧ s2.header.Record = 0 := by
  refine ⟨_, _, rfl, rfl, rfl, rfl, rfl, rfl⟩

/-- Claim C2: the spec says an oversize content is rejected with a
`ValidationError` before any write.  The code has no validation at all:
with `Length = 4097` the slice `content.Content[:content.Length]`
overruns the 4096-byte array and `Store` panics at runtime. -/
theorem C2_oversize_store_panics :
    MAXIMUM_MESSAGE_SIZE < cBig.Length ∧
    Storage.Store sInit 1 cBig = .crash :=
  ⟨by decide, rfl⟩

/-- Claim C3: the spec says `Get(id)` reads `RECORD_SIZE` bytes at
`offset(id)` and distinguishes `NotFoundError` from `FormatError`.  The
implemented method is a stub returning the empty string for every
identifier and state; in particular `Get(99)` on a store with
`Count = 1` returns `""`, not a `NotFoundError`. -/
theorem C3_get_stub :
    (∀ (s : Storage) (id : Int), Storage.Get s id = "") ∧
    sCount1.header.Count = 1 ∧ Storage.Get sCount1 99 = "" :=
  ⟨fun _ _ => rfl, rfl, rfl⟩

/-- Claim C4: the spec says header decoding fails with a `FormatError`
for fewer than 16 bytes or a wrong magic, fatally at `Initialize` time.
The code checks nothing: a 16-byte file with magic `"XXXX"` and a 3-byte
file both initialize successfully, the garbage bytes being cached as the
header. -/
theorem C4_no_header_validation :
    Storage.Initialize sBadMagic = .ok
      { stdOut := [creatingMsg, existsMsg]
        header := { Magic := [88, 88, 88, 88], Version := 1, Record := 0, Count := 0 }
        file := some fBadMagic } ∧
    ([88, 88, 88, 88] : List Nat) ≠ freshHeader.Magic ∧
    Storage.Initialize sShortFile = .ok
      { stdOut := [creatingMsg, existsMsg]
        header := { Magic := [67, 72, 65, 0], Version := 0, Record := 0, Count := 0 }
        file := some [67, 72, 65] } ∧
    ([67, 72, 65] : List Nat).length < HEADER_SIZE :=
  ⟨rfl, by decide, rfl, by decide⟩

/-- Claim C5: initializing over an existing database file is not an
error: the on-disk header is loaded into the cache, the "already exists"
notification is emitted and the call succeeds; initializing twice from an
absent file leaves the on-disk bytes exactly as the first call wrote
them. -/
theorem C5_initialize_reopen :
    (∀ (s : Storage) (f : List Nat), s.file = some f → f.length ≠ 0 →
      Storage.Initialize s = .ok
        { stdOut := s.stdOut ++ [creatingMsg, existsMsg]
          header := decodeHeader (pad16 f)
          file := some f }) ∧
    (∀ s0 : Storage, s0.file = none →
      ∃ t1 t2, Storage.Initialize s0 = .ok t1 ∧
        t1.file = some (encodeHeader freshHeader) ∧
        Storage.Initialize t1 = .ok t2 ∧
        t2.file = t1.file ∧
        t2.header = freshHeader ∧
        t2.stdOut = t1.stdOut ++ [creatingMsg, existsMsg]) := by
  constructor
  · intro s f hf h0
    rw [Initialize_some s f hf, if_neg h0]
  · intro s0 h0
    refine ⟨_, _, Initialize_none s0 h0, rfl,
      Initialize_some _ (encodeHeader freshHeader) rfl, rfl, ?_, rfl⟩
    show decodeHeader (pad16 (encodeHeader freshHeader)) = freshHeader
    decide

/-- Witness for C5 at the concrete absent-file state. -/
theorem C5_witness :
    ∃ t1 t2, Storage.Initialize sAbsent = .ok t1 ∧
      t1.file = some (encodeHeader freshHeader) ∧
      Storage.Initialize t1 = .ok t2 ∧
      t2.file = t1.file ∧
      t2.header = freshHeader ∧
      t2.stdOut = t1.stdOut ++ [creatingMsg, existsMsg] :=
  C5_initialize_reopen.2 sAbsent rfl

/-- Claim C6: storing twice at the same nonzero identifier overwrites
the record in place: afterwards the `RECORD_SIZE` bytes at `offset(id)`
are exactly the encoding of the second content, and neither call touches
the cached header, in particular `Count`. -/
theorem C6_overwrite_in_place (s : Storage) (f : List Nat) (id : Nat)
    (c1 c2 : Content) (hf : s.file = some f) (hid : id ≠ 0)
    (h1 : c1.Length ≤ MAXIMUM_MESSAGE_SIZE)
    (h2 : c2.Length ≤ MAXIMUM_MESSAGE_SIZE)
    (hc2 : c2.Content.length = MAXIMUM_MESSAGE_SIZE) :
    ∃ s1 s2 f2,
      Storage.Store s id c1 = .ok id s1 ∧
      Storage.Store s1 id c2 = .ok id s2 ∧
      s1.header = s.header ∧ s2.header = s.header ∧
      s2.file = some f2 ∧
      readAt f2 (Storage.GetOffset id) CONTENT_SIZE = encodeRecord id c2 ∧
      s2.header.Count = s.header.Count := by
  refine ⟨_, _, _, Store_ne_zero s f id c1 hf hid h1,
    Store_ne_zero _ _ id c2 rfl hid h2, rfl, rfl, rfl, ?_, rfl⟩
  have hlen : (encodeRecord id c2).length = CONTENT_SIZE :=
    encodeRecord_length id c2 h2 hc2
  rw [← hlen]
  exact readAt_writeAt _ _ _

/-- Witness for C6: overwriting identifier 5 with two concrete
messages. -/
theorem C6_witness :
    ∃ s1 s2 f2,
      Storage.Store sInit 5 cA = .ok 5 s1 ∧
      Storage.Store s1 5 cB = .ok 5 s2 ∧
      s1.header = sInit.header ∧ s2.header = sInit.header ∧
      s2.file = some f2 ∧
      readAt f2 (Storage.GetOffset 5) CONTENT_SIZE = encodeRecord 5 cB ∧
      s2.header.Count = sInit.header.Count :=
  C6_overwrite_in_place sInit (encodeHeader freshHeader) 5 cA cB rfl
    (by decide) (by decide) (by decide)
    (by rw [show cB.Content = 2 :: 3 :: List.replicate 4094 0 from rfl]
        simp only [List.length_cons, List.length_replicate, MAXIMUM_MESSAGE_SIZE])

/-- Claim C7: the header codec round-trips: decoding the 16 bytes
produced by encoding any well-formed header (4 magic bytes, 32-bit
fields) yields the same header. -/
theorem C7_header_roundtrip (h : Header) (hm : h.Magic.length = 4)
    (hv : h.Version < 2 ^ 32) (hr : h.Record < 2 ^ 32)
    (hc : h.Count < 2 ^ 32) :
    decodeHeader (encodeHeader h) = h :=
  decodeHeader_encodeHeader h hm hv hr hc

/-- Witness for C7 on a concrete header. -/
theorem C7_witness :
    decodeHeader (encodeHeader
      { Magic := [67, 72, 65, 84], Version := 1, Record := 7, Count := 3 }) =
      { Magic := [67, 72, 65, 84], Version := 1, Record := 7, Count := 3 } :=
  C7_header_roundtrip _ (by decide) (by decide) (by decide) (by decide)

/-- Counterexample to claim C8: the offset map is computed in `uint32`
arithmetic, so at identifier 1042975 the computed offset differs from
`HEADER_SIZE + id * RECORD_SIZE` (which exceeds `2^32`). -/
theorem C8_counterexample :
    Storage.GetOffset 1042975 ≠ HEADER_SIZE + 1042975 * CONTENT_SIZE := by
  decide

/-- Claim C8 as amended: the offset map is
`(HEADER_SIZE + id * RECORD_SIZE) mod 2^32`; it agrees with the claimed
`HEADER_SIZE + id * RECORD_SIZE` exactly when that value fits in 32
bits, and `offset(0) = HEADER_SIZE` holds. -/
theorem C8_offset_amended (id : Nat) :
    Storage.GetOffset id = (HEADER_SIZE + id * CONTENT_SIZE) % 2 ^ 32 ∧
    (HEADER_SIZE + id * CONTENT_SIZE < 2 ^ 32 →
      Storage.GetOffset id = HEADER_SIZE + id * CONTENT_SIZE) ∧
    Storage.GetOffset 0 = HEADER_SIZE :=
  ⟨rfl, fun h => Nat.mod_eq_of_lt h, by decide⟩

/-- Witness for C8 at a small identifier where no wrap occurs. -/
theorem C8_witness :
    Storage.GetOffset 5 = HEADER_SIZE + 5 * CONTENT_SIZE :=
  (C8_offset_amended 5).2.1 (by decide)

/-- Claim C9: the identifier actually used for addressing is stamped
into the record's 4-byte `Id` field, ignoring the caller-supplied
`content.Id`: `Store` is insensitive to `c.Id`, and the first four bytes
written at `offset(id)` encode `id` (resp. the allocated identifier when
`id = 0`). -/
theorem C9_record_id_stamped (s : Storage) (f : List Nat) (id : Nat)
    (c : Content) (hf : s.file = some f) (hid32 : id < 2 ^ 32)
    (hlen : c.Length ≤ MAXIMUM_MESSAGE_SIZE) :
    (∀ j, Storage.Store s id { c with Id := j } = Storage.Store s id c) ∧
    (id ≠ 0 → ∃ s1 f1, Storage.Store s id c = .ok id s1 ∧
      s1.file = some f1 ∧
      readAt f1 (Storage.GetOffset id) 4 = enc32 id) ∧
    (s.header.Count + 1 < 2 ^ 32 →
      ∃ s1 f1, Storage.Store s 0 c = .ok (s.header.Count + 1) s1 ∧
        s1.file = some f1 ∧
        readAt f1 (Storage.GetOffset (s.header.Count + 1)) 4 =
          enc32 (s.header.Count + 1)) := by
  refine ⟨fun j => rfl, fun hid => ?_, fun hcnt => ?_⟩
  · refine ⟨_, _, Store_ne_zero s f id c hf hid hlen, rfl, ?_⟩
    have h4 : 4 ≤ (encodeRecord id c).length := by
      simp only [encodeRecord, List.length_append, enc32_length]
      omega
    rw [readAt_writeAt_take _ _ _ 4 h4]
    have e : (encodeRecord id c).take 4 = enc32 (id % 2 ^ 32) := by
      simp only [encodeRecord]
      exact List.take_left' (enc32_length _)
    rw [e, Nat.mod_eq_of_lt hid32]
  · refine ⟨_, _, Store_zero s f c hf hcnt hlen, rfl, ?_⟩
    have h4 : 4 ≤ (encodeRecord (s.header.Count + 1) c).length := by
      simp only [encodeRecord, List.length_append, enc32_length]
      omega
    rw [readAt_writeAt_take _ _ _ 4 h4]
    have e : (encodeRecord (s.header.Count + 1) c).take 4 =
        enc32 ((s.header.Count + 1) % 2 ^ 32) := by
      simp only [encodeRecord]
      exact List.take_left' (enc32_length _)
    rw [e, Nat.mod_eq_of_lt hcnt]

/-- Witness for C9: storing content `cB` (whose own `Id` field is 0) at
identifier 5 stamps 5 into the record's first four bytes. -/
theorem C9_witness :
    ∃ s1 f1, Storage.Store sInit 5 cB = .ok 5 s1 ∧ s1.file = some f1 ∧
      readAt f1 (Storage.GetOffset 5) 4 = enc32 5 :=
  (C9_record_id_stamped sInit (encodeHeader freshHeader) 5 cB rfl
    (by decide) (by decide)).2.1 (by decide)

/-- Claim C10: `GetOffset` computes in 32-bit unsigned arithmetic:
it equals `(HEADER_SIZE + id * RECORD_SIZE) mod 2^32`, differs from the
unwrapped value whenever that value reaches `2^32`, and is not
injective: the distinct 32-bit identifiers `2^31` and `0` map to the
same offset `HEADER_SIZE`, aliasing the reserved slot right after the
header. -/
theorem C10_offset_uint32_wrap :
    (∀ id : Nat,
      Storage.GetOffset id = (HEADER_SIZE + id * CONTENT_SIZE) % 2 ^ 32) ∧
    (∀ id : Nat, 2 ^ 32 ≤ HEADER_SIZE + id * CONTENT_SIZE →
      Storage.GetOffset id ≠ HEADER_SIZE + id * CONTENT_SIZE) ∧
    Storage.GetOffset (2 ^ 31) = Storage.GetOffset 0 ∧
    (2 ^ 31 : Nat) ≠ 0 ∧ (2 ^ 31 : Nat) < 2 ^ 32 ∧
    Storage.GetOffset 0 = HEADER_SIZE := by
  refine ⟨fun id => rfl, fun id h => ?_, by decide, by decide, by decide,
    by decide⟩
  have hlt : Storage.GetOffset id < 2 ^ 32 :=
    Nat.mod_lt _ (by decide)
  omega

/-- Witness for C10 at identifier 2000000, whose unwrapped offset
exceeds `2^32`. -/
theorem C10_witness :
    Storage.GetOffset 2000000 ≠ HEADER_SIZE + 2000000 * CONTENT_SIZE :=
  C10_offset_uint32_wrap.2.1 2000000 (by decide)

end Relay
